import Mathlib

/-!
Verification of the recommendation query-building, search-result shaping and
error-handling logic of the go_es_analytical_system repository.

The Go code is shallowly embedded: Go float64 values that are only carried or
compared against literals are modelled as rationals, Go int as Int, Go maps
built as untyped JSON values as the inductive JVal (association lists preserve
the insertion order of the source code), and the HTTP search engine as an
oracle function supplied by each theorem.
-/

namespace GoEsAnalytical

/-- JSON-like value, modelling the untyped nested maps the Go code builds
(map from string to interface values). -/
inductive JVal : Type where
  | jstr : String → JVal
  | jnum : Rat → JVal
  | jobj : List (String × JVal) → JVal
  | jarr : List JVal → JVal
deriving Repr

/-- Association-list lookup of a key, first match wins (models access into a
Go map whose literal keys are distinct). -/
def lookupKey (key : String) : List (String × JVal) → Option JVal
  | [] => none
  | (k, v) :: rest => if k = key then some v else lookupKey key rest

/-- Field access on a JSON object; none on non-objects. -/
def JVal.look (j : JVal) (key : String) : Option JVal :=
  match j with
  | .jobj kvs => lookupKey key kvs
  | _ => none

/-- Embeds models.RecommendRequest (src/internal/models/models.go).
Region, City, BusinessType are Go strings; Limit is a Go int. -/
structure RecommendRequest where
  region : String
  city : String
  businessType : String
  limit : Int
deriving Repr, DecidableEq

/-- Term (exact-match) clause as built inline by buildRecommendQuery:
a map with key "term" holding a map from the field name to the value. -/
def termClause (field value : String) : JVal :=
  .jobj [("term", .jobj [(field, .jstr value)])]

/-- Range boost clause as built inline by buildRecommendQuery: a map with key
"range" holding the field, the bound kind with a threshold, and a boost. -/
def rangeBoostClause (field bound : String) (threshold boostWeight : Rat) : JVal :=
  .jobj [("range", .jobj [(field, .jobj [(bound, .jnum threshold), ("boost", .jnum boostWeight)])])]

/-- Sort entry as built inline by buildRecommendQuery: a map from the field
name to a map with key "order". -/
def sortClause (field order : String) : JVal :=
  .jobj [(field, .jobj [("order", .jstr order)])]

/-- Embeds buildRecommendQuery (src/internal/storage/elasticsearch.go, lines
251-333).  The Go function receives the request through a pointer and, after
building the query, sets req.Limit to 20 when it is 0; the embedding therefore
returns both the built query and the request value as it stands after the
call. -/
def buildRecommendQuery (req : RecommendRequest) : JVal × RecommendRequest :=
  let mustClauses : List JVal := []
  let mustClauses := if req.region ≠ "" then
      mustClauses ++ [termClause "region" req.region] else mustClauses
  let mustClauses := if req.city ≠ "" then
      mustClauses ++ [termClause "city" req.city] else mustClauses
  let mustClauses := if req.businessType ≠ "" then
      mustClauses ++ [termClause "business_types_suitable" req.businessType] else mustClauses
  let shouldClauses : List JVal :=
    [rangeBoostClause "traffic_score" "gte" 7 2]
  let shouldClauses := shouldClauses ++
    [rangeBoostClause "competition_density" "lte" 3 1.5]
  let query : JVal := .jobj
    [ ("query", .jobj
        [ ("bool", .jobj
            [ ("must", .jarr mustClauses),
              ("should", .jarr shouldClauses),
              ("minimum_should_match", .jnum 0) ]) ]),
      ("sort", .jarr
        [ sortClause "_score" "desc",
          sortClause "traffic_score" "desc",
          sortClause "competition_density" "asc" ]) ]
  let req := if req.limit = 0 then { req with limit := 20 } else req
  (query, req)

/-- Extracts the list of mandatory (must) clauses from a built query. -/
def queryMustClauses (q : JVal) : Option (List JVal) :=
  match ((q.look "query").bind (fun b => b.look "bool")).bind (fun b => b.look "must") with
  | some (.jarr xs) => some xs
  | _ => none

/-- Extracts the list of non-mandatory (should) clauses from a built query. -/
def queryShouldClauses (q : JVal) : Option (List JVal) :=
  match ((q.look "query").bind (fun b => b.look "bool")).bind (fun b => b.look "should") with
  | some (.jarr xs) => some xs
  | _ => none

/-- Extracts the minimum_should_match value from a built query. -/
def queryMinimumShouldMatch (q : JVal) : Option JVal :=
  ((q.look "query").bind (fun b => b.look "bool")).bind (fun b => b.look "minimum_should_match")

/-- Extracts the sort specification list from a built query. -/
def querySortSpec (q : JVal) : Option (List JVal) :=
  match q.look "sort" with
  | some (.jarr xs) => some xs
  | _ => none

/-- Embeds models.GeoPoint (src/internal/models/models.go); float64
coordinates are modelled as rationals. -/
structure GeoPoint where
  lat : Rat
  lon : Rat
deriving Repr, DecidableEq, Inhabited

/-- Embeds models.Demographics (src/internal/models/models.go). -/
structure Demographics where
  ageGroup : String
  averageIncome : Rat
  interests : List String
  populationDensity : Rat
deriving Repr, DecidableEq, Inhabited

/-- Embeds models.Location (src/internal/models/models.go).  The time.Time
timestamps are modelled as abstract tick counts; float64 fields as rationals.
Score is the transient ranking score (JSON tag score,omitempty). -/
structure Location where
  id : String
  name : String
  address : String
  coordinates : GeoPoint
  region : String
  city : String
  description : String
  businessTypesSuitable : List String
  trafficScore : Rat
  competitionDensity : Rat
  demographics : Demographics
  embedding : List Rat
  createdAt : Nat
  updatedAt : Nat
  score : Rat
deriving Repr, DecidableEq, Inhabited

/-- One hit of the search response body decoded by storage RecommendLocations:
the document source plus the engine relevance score. -/
structure SearchHit where
  source : Location
  score : Rat
deriving Repr, DecidableEq, Inhabited

/-- Decoded body of a search response (hits.total.value and hits.hits). -/
structure SearchBody where
  total : Int
  hits : List SearchHit
deriving Repr, DecidableEq, Inhabited

/-- Outcome of one HTTP round trip to the search engine as observed by the Go
code: either the transport itself failed (httpClient.Do returned an error, the
message is kept) or a response with a status code and a decoded body came
back. -/
inductive EngineAnswer (β : Type) : Type where
  | transport : String → EngineAnswer β
  | http : Nat → β → EngineAnswer β
deriving Repr, DecidableEq, Inhabited

/-- A search engine oracle: receives the built query and the size parameter
of the request URL, answers one HTTP round trip. -/
def SearchEngine : Type := JVal → Int → EngineAnswer SearchBody

/-- Conversion of one hit performed in the decode loop of storage
RecommendLocations: the source document with Score set from the hit score. -/
def hitToLocation (hit : SearchHit) : Location :=
  { hit.source with score := hit.score }

/-- Embeds storage RecommendLocations (src/internal/storage/elasticsearch.go,
lines 197-248): builds the query (which may update req.Limit), issues the
search with size equal to the request limit after that call, fails on
transport errors and on statuses at least 400, otherwise returns the hit
sources with the transient score populated, in response order. -/
def esRecommendLocations (engine : SearchEngine) (req : RecommendRequest) :
    Except String (List Location) :=
  let built := buildRecommendQuery req
  match engine built.1 built.2.limit with
  | .transport e => .error ("failed to search: " ++ e)
  | .http status body =>
    if status ≥ 400 then .error ("error searching: status " ++ toString status)
    else .ok (body.hits.map hitToLocation)

/-- Embeds models.RecommendResponse (src/internal/models/models.go); the Go
handler always sets Total to the length of the locations slice. -/
structure RecommendResponse where
  locations : List Location
  total : Nat
deriving Repr, DecidableEq

/-- Observable outcome of the recommend HTTP handler: 400 with a message, 500
(the logged storage error message is kept), or 200 with a response body. -/
inductive RecommendHandlerResult : Type where
  | badRequest : String → RecommendHandlerResult
  | serverError : String → RecommendHandlerResult
  | ok : RecommendResponse → RecommendHandlerResult
deriving Repr, DecidableEq

/-- Embeds handlers.RecommendLocations (src/internal/handlers/handlers.go,
lines 43-88) from the decoded request on: validates that region and
business_type are non-empty, defaults a zero limit to 20, then calls the
storage layer.  The second component counts calls made to the search engine,
zero when validation rejects the request. -/
def recommendLocationsHandler (engine : SearchEngine) (req : RecommendRequest) :
    RecommendHandlerResult × Nat :=
  if req.region = "" ∨ req.businessType = "" then
    (.badRequest "Region and business_type are required", 0)
  else
    let req := if req.limit = 0 then { req with limit := 20 } else req
    match esRecommendLocations engine req with
    | .error e => (.serverError e, 1)
    | .ok locations => (.ok ⟨locations, locations.length⟩, 1)

/-- Decoded body of a get-document response: the found flag and the source. -/
structure DocBody where
  found : Bool
  source : Location
deriving Repr, DecidableEq, Inhabited

/-- A document-fetch oracle for the get-by-id endpoint: maps the document id
to the outcome of one HTTP round trip. -/
def DocFetcher : Type := String → EngineAnswer DocBody

/-- Embeds storage GetLocation (src/internal/storage/elasticsearch.go, lines
155-192): transport failure is wrapped, status 404 yields the error message
"location not found", other statuses at least 400 yield a status error, a
decoded body with found false also yields "location not found", otherwise the
source document is returned. -/
def getLocation (fetch : DocFetcher) (id : String) : Except String Location :=
  match fetch id with
  | .transport e => .error ("failed to get location: " ++ e)
  | .http status body =>
    if status = 404 then .error "location not found"
    else if status ≥ 400 then .error ("error getting location: status " ++ toString status)
    else if !body.found then .error "location not found"
    else .ok body.source

/-- Observable outcome of the get-location HTTP handler: 400, 404, 500 (with
the logged message), or 200 with the document. -/
inductive GetHandlerResult : Type where
  | badRequest : GetHandlerResult
  | notFound : GetHandlerResult
  | serverError : String → GetHandlerResult
  | ok : Location → GetHandlerResult
deriving Repr, DecidableEq

/-- Embeds handlers.GetLocation (src/internal/handlers/handlers.go, lines
103-134): empty id is rejected, then the storage error is classified by
comparing the error message string with the literal "location not found"
(handlers.go line 119) to choose between 404 and 500. -/
def getLocationHandler (fetch : DocFetcher) (id : String) : GetHandlerResult :=
  if id = "" then .badRequest
  else
    match getLocation fetch id with
    | .error msg => if msg = "location not found" then .notFound else .serverError msg
    | .ok loc => .ok loc

/-- An idealized index store: maps a document id to the stored document.
Indexing stores the JSON marshalling of the Location; since the Go struct
round-trips through JSON unchanged (omitempty fields of zero value decode back
to the zero value), the stored document is modelled as the Location value
itself. -/
def Store : Type := String → Option Location

/-- The empty index. -/
def emptyStore : Store := fun _ => none

/-- Embeds IndexLocation (src/internal/storage/elasticsearch.go, lines
80-105) against the idealized store: the marshalled document is written under
its ID, overwriting any existing document with that ID. -/
def indexLocation (store : Store) (loc : Location) : Store :=
  fun id => if id = loc.id then some loc else store id

/-- The get-document endpoint of the engine over the idealized store: a
present id answers 200 with found true and the stored source, an absent id
answers 404 with found false. -/
def docEndpoint (store : Store) : DocFetcher :=
  fun id =>
    match store id with
    | some loc => .http 200 ⟨true, loc⟩
    | none => .http 404 ⟨false, default⟩

/-- Rank order the sort specification of the built query denotes, on hits:
relevance score descending, then traffic score descending, then competition
density ascending. -/
def hitRankLE (a b : SearchHit) : Prop :=
  b.score < a.score ∨ (a.score = b.score ∧
    (b.source.trafficScore < a.source.trafficScore ∨
      (a.source.trafficScore = b.source.trafficScore ∧
        a.source.competitionDensity ≤ b.source.competitionDensity)))

/-- The same rank order on result locations (whose score field holds the
relevance score after hitToLocation). -/
def locRankLE (a b : Location) : Prop :=
  b.score < a.score ∨ (a.score = b.score ∧
    (b.trafficScore < a.trafficScore ∨
      (a.trafficScore = b.trafficScore ∧ a.competitionDensity ≤ b.competitionDensity)))

instance : DecidableRel hitRankLE := fun a b => by
  unfold hitRankLE; infer_instance

instance : DecidableRel locRankLE := fun a b => by
  unfold locRankLE; infer_instance

/-- Concrete hit with high relevance, used to evaluate the theorems on a
closed input. -/
def hitA : SearchHit :=
  ⟨{ (default : Location) with id := "A", trafficScore := 9, competitionDensity := 1 }, 10⟩

/-- Concrete hit with low relevance, used to evaluate the theorems on a
closed input. -/
def hitB : SearchHit :=
  ⟨{ (default : Location) with id := "B", trafficScore := 5, competitionDensity := 4 }, 3⟩

/-- Concrete request with a negative limit. -/
def c4req : RecommendRequest := ⟨"Moscow", "", "cafe", -5⟩

/-- Concrete location whose transient ranking score is set (nonzero) before
indexing. -/
def c6loc : Location :=
  { id := "L1", name := "Cafe spot", address := "Main street 1",
    coordinates := ⟨1, 2⟩, region := "Moscow", city := "Moscow",
    description := "corner unit", businessTypesSuitable := ["cafe"],
    trafficScore := 8, competitionDensity := 2,
    demographics := ⟨"25-34", 100, ["coffee"], 5⟩, embedding := [],
    createdAt := 0, updatedAt := 0, score := 5 }

/-- Concrete request with limit 0. -/
def c8req : RecommendRequest := ⟨"Moscow", "Moscow", "cafe", 0⟩

deriving instance DecidableEq for Except

end GoEsAnalytical

namespace GoEsAnalytical

/-- C1: the must clause list of the built query is exactly the concatenation
of one term clause per non-empty field, in source order. -/
theorem c1_must_clauses_exact (req : RecommendRequest) :
    queryMustClauses (buildRecommendQuery req).1 =
      some ((if req.region = "" then [] else [termClause "region" req.region])
        ++ (if req.city = "" then [] else [termClause "city" req.city])
        ++ (if req.businessType = "" then []
            else [termClause "business_types_suitable" req.businessType])) := by
  by_cases h1 : req.region = "" <;> by_cases h2 : req.city = "" <;>
    by_cases h3 : req.businessType = "" <;>
      simp [buildRecommendQuery, queryMustClauses, JVal.look, lookupKey, h1, h2, h3]

/-- C2: for every request the built query carries exactly two should clauses,
a traffic_score gte 7 boost of weight 2 and a competition_density lte 3 boost
of weight 1.5, and minimum_should_match is 0. -/
theorem c2_should_clauses (req : RecommendRequest) :
    queryShouldClauses (buildRecommendQuery req).1 =
      some [rangeBoostClause "traffic_score" "gte" 7 2,
            rangeBoostClause "competition_density" "lte" 3 1.5]
    ∧ queryMinimumShouldMatch (buildRecommendQuery req).1 = some (.jnum 0) :=
  ⟨rfl, rfl⟩

/-- C3: the built query always carries the sort specification relevance score
descending, then traffic_score descending, then competition_density ascending,
in that sequence; and whenever the engine returns hits already ordered by that
rank, the search layer returns exactly those hits converted in order, so the
result list is ordered by the same rank. -/
theorem c3_sort_spec_and_order :
    (∀ req : RecommendRequest, querySortSpec (buildRecommendQuery req).1 =
      some [sortClause "_score" "desc", sortClause "traffic_score" "desc",
            sortClause "competition_density" "asc"])
    ∧ (∀ (body : SearchBody) (req : RecommendRequest),
        body.hits.Pairwise hitRankLE →
          esRecommendLocations (fun _ _ => .http 200 body) req =
              .ok (body.hits.map hitToLocation)
            ∧ (body.hits.map hitToLocation).Pairwise locRankLE) := by
  constructor
  · intro req; rfl
  · intro body req hsorted
    exact ⟨rfl, hsorted.map hitToLocation (fun a b h => h)⟩

/-- Witness for C3: the ordering transfer evaluated at two concrete hits. -/
theorem c3_witness :
    ([hitA, hitB].Pairwise hitRankLE)
    ∧ (esRecommendLocations (fun _ _ => .http 200 ⟨57, [hitA, hitB]⟩)
          ⟨"Moscow", "", "cafe", 5⟩ = .ok ([hitA, hitB].map hitToLocation)
        ∧ ([hitA, hitB].map hitToLocation).Pairwise locRankLE) :=
  ⟨by decide,
   c3_sort_spec_and_order.2 ⟨57, [hitA, hitB]⟩ ⟨"Moscow", "", "cafe", 5⟩ (by decide)⟩

/-- C4 counterexample: a valid request whose limit is -5 (which is at most 0)
reaches the search engine with size -5, not 20: the engine oracle echoes the
size it received, and the handler logs it; likewise the storage-level limit
after buildRecommendQuery is still -5. -/
theorem c4_counterexample :
    recommendLocationsHandler (fun _ lim => .transport (toString lim)) c4req =
      (.serverError "failed to search: -5", 1)
    ∧ c4req.limit ≤ 0 ∧ ((buildRecommendQuery c4req).2).limit = -5 := by
  refine ⟨rfl, by decide, rfl⟩

/-- C4 amended: for every valid request, the size the search engine is called
with is 20 when the request limit is 0 and the unchanged limit otherwise (so
zero and absent limits are defaulted but negative limits pass through). -/
theorem c4_limit_defaulting (req : RecommendRequest)
    (hr : req.region ≠ "") (hb : req.businessType ≠ "") :
    recommendLocationsHandler (fun _ lim => .transport (toString lim)) req =
      (.serverError ("failed to search: " ++
          toString (if req.limit = 0 then (20 : Int) else req.limit)), 1) := by
  unfold recommendLocationsHandler esRecommendLocations buildRecommendQuery
  by_cases h : req.limit = 0 <;> simp [h, hr, hb]

/-- Witness for C4 amended: a valid request with limit 0 reaches the engine
with size 20. -/
theorem c4_witness :
    recommendLocationsHandler (fun _ lim => .transport (toString lim))
        ⟨"Moscow", "", "cafe", 0⟩ = (.serverError "failed to search: 20", 1) :=
  c4_limit_defaulting ⟨"Moscow", "", "cafe", 0⟩ (by decide) (by decide)

/-- C5: a request with empty region or empty business type is rejected with
the 400 bad-request answer and the search engine is called zero times. -/
theorem c5_validation_rejects (engine : SearchEngine) (req : RecommendRequest)
    (h : req.region = "" ∨ req.businessType = "") :
    recommendLocationsHandler engine req =
      (.badRequest "Region and business_type are required", 0) := by
  unfold recommendLocationsHandler
  rw [if_pos h]

/-- Witness for C5: a concrete request with empty business type is rejected
without any engine call. -/
theorem c5_witness :
    ((("Moscow" : String) = "" ∨ ("" : String) = ""))
    ∧ recommendLocationsHandler (fun _ _ => .http 200 default)
        ⟨"Moscow", "Moscow", "", 5⟩ =
      (.badRequest "Region and business_type are required", 0) :=
  ⟨Or.inr rfl, c5_validation_rejects _ ⟨"Moscow", "Moscow", "", 5⟩ (Or.inr rfl)⟩

/-- C6 counterexample: indexing a location whose transient score is 5 and
fetching it back returns the score still set to 5, not unset: the fetched
document is the indexed one unchanged, and differs from the claimed document
with score cleared. -/
theorem c6_counterexample :
    getLocation (docEndpoint (indexLocation emptyStore c6loc)) "L1" = .ok c6loc
    ∧ getLocation (docEndpoint (indexLocation emptyStore c6loc)) "L1" ≠
        .ok { c6loc with score := 0 } := by
  refine ⟨rfl, ?_⟩
  intro h
  have h2 : c6loc = { c6loc with score := 0 } := Except.ok.inj h
  have h3 := congrArg Location.score h2
  simp [c6loc] at h3

/-- C6 amended: indexing a location and fetching it by its identifier returns
the document equal to the input in every field, the score field included as it
was indexed (so the fetched score is unset exactly when the input score was
unset). -/
theorem c6_roundtrip_full (store : Store) (loc : Location) :
    getLocation (docEndpoint (indexLocation store loc)) loc.id = .ok loc := by
  simp [getLocation, docEndpoint, indexLocation]

/-- C7: an absent identifier yields the 404 answer while a transport failure
yields the 500 answer carrying a different message, so the two are
distinguishable; the handler reaches this distinction by comparing the error
message string with the literal "location not found" (handlers.go line 119),
not by a structured error classification. -/
theorem c7_classification_by_message :
    getLocationHandler (docEndpoint emptyStore) "missing" = .notFound
    ∧ getLocationHandler (fun _ => .transport "connection refused") "L1" =
        .serverError "failed to get location: connection refused"
    ∧ ("failed to get location: connection refused" : String) ≠ "location not found" :=
  ⟨rfl, rfl, by decide⟩

/-- C8 counterexample: buildRecommendQuery changes the request it is given:
on a request with limit 0 the request after the call has limit 20, so the
input value is not left unchanged. -/
theorem c8_counterexample :
    (buildRecommendQuery c8req).2 ≠ c8req
    ∧ ((buildRecommendQuery c8req).2).limit = 20 ∧ c8req.limit = 0 := by
  refine ⟨by decide, rfl, rfl⟩

/-- C8 amended: the only change buildRecommendQuery makes to the request is
the limit defaulting: the request after the call equals the input with its
limit replaced by 20 when it was 0 and kept otherwise; region, city and
business type are unchanged. -/
theorem c8_request_mutation (req : RecommendRequest) :
    (buildRecommendQuery req).2 =
      { req with limit := if req.limit = 0 then 20 else req.limit } := by
  unfold buildRecommendQuery
  by_cases h : req.limit = 0 <;> simp [h]

/-- C9: for every engine-reported total count and hit list, a valid request
produces the 200 response whose locations are exactly the hits converted in
order and whose total is the length of that list, independent of the
engine-reported total. -/
theorem c9_total_and_order (engineTotal : Int) (hits : List SearchHit)
    (req : RecommendRequest) (hr : req.region ≠ "") (hb : req.businessType ≠ "") :
    recommendLocationsHandler (fun _ _ => .http 200 ⟨engineTotal, hits⟩) req =
      (.ok ⟨hits.map hitToLocation, (hits.map hitToLocation).length⟩, 1) := by
  unfold recommendLocationsHandler esRecommendLocations
  simp [hr, hb]

/-- Witness for C9: with the engine reporting a total of 100 but returning two
hits, the response total is 2, the length of the returned list. -/
theorem c9_witness :
    (("Moscow" : String) ≠ "") ∧ (("cafe" : String) ≠ "")
    ∧ recommendLocationsHandler (fun _ _ => .http 200 ⟨100, [hitA, hitB]⟩)
        ⟨"Moscow", "", "cafe", 5⟩ =
      (.ok ⟨[hitA, hitB].map hitToLocation, ([hitA, hitB].map hitToLocation).length⟩, 1) :=
  ⟨by decide, by decide,
   c9_total_and_order 100 [hitA, hitB] ⟨"Moscow", "", "cafe", 5⟩ (by decide) (by decide)⟩

/-- C10: GetLocation answers the "location not found" error both when the
engine answers status 404 and when it answers a success status with found
false in the body; being an error, no location value is returned. -/
theorem c10_not_found_cases (status : Nat) (body : DocBody) (id : String)
    (h : status = 404 ∨ (status < 400 ∧ body.found = false)) :
    getLocation (fun _ => .http status body) id = .error "location not found" := by
  unfold getLocation
  rcases h with h | ⟨hs, hf⟩
  · simp [h]
  · have h404 : status ≠ 404 := by omega
    simp [h404, Nat.not_le.mpr hs, hf]

/-- Witness for C10: both branches evaluated at concrete inputs, a 404 answer
and a 200 answer with found false. -/
theorem c10_witness :
    ((404 : Nat) = 404 ∨ ((404 : Nat) < 400 ∧ (DocBody.mk false default).found = false))
    ∧ getLocation (fun _ => .http 404 ⟨false, default⟩) "missing" =
        .error "location not found"
    ∧ getLocation (fun _ => .http 200 ⟨false, default⟩) "ghost" =
        .error "location not found" :=
  ⟨Or.inl rfl,
   c10_not_found_cases 404 ⟨false, default⟩ "missing" (Or.inl rfl),
   c10_not_found_cases 200 ⟨false, default⟩ "ghost" (Or.inr ⟨by decide, rfl⟩)⟩

end GoEsAnalytical
